import Mathlib

/-!
Verification of the post-creation profile provisioning hook of
`revision_v2/mysite/users/signals.py`.

The hook `build_profile(sender, instance, created, **kwargs)` is registered
on the `post_save` event of the `User` model and, when `created` is true,
issues `Profile.objects.create(user=instance)`.  We embed the hook, the two
entity stores (User rows and Profile rows) and the surrounding persistence
operations, and prove the contract stated for the provisioner.
-/

namespace ProfileProvisioner

/-- A User row: an identity record with a primary key and a name.
(The concrete scenario in the spec uses `{id, name}`.) -/
structure User where
  id : Nat
  name : String
deriving DecidableEq

/-- A Profile row: holds the one-to-one association to its User via
`user_id` (the foreign key column of the association). -/
structure Profile where
  user_id : Nat
deriving DecidableEq

/-- The two entity stores, plus a fault-injection flag for the external
Profile store (`profileStoreDown` forces the next insert to fail, modelling
"storage unavailable"). -/
structure Store where
  users : List User
  profiles : List Profile
  profileStoreDown : Bool
deriving DecidableEq

/-- The initial, empty store. -/
def emptyStore : Store := ⟨[], [], false⟩

/-- Errors surfaced by the Profile store, as classified by the spec's
error taxonomy: a storage fault, or a constraint violation on the
one-to-one association (duplicate key). -/
inductive ProvisioningError where
  | storageFault
  | duplicateAssociation
deriving DecidableEq

/-- Number of Profile rows referencing the user with primary key `uid`. -/
def profileCount (s : Store) (uid : Nat) : Nat :=
  (s.profiles.filter (fun p => p.user_id = uid)).length

/-- Modelled from the spec: the external Profile store's insert operation
(`Profile.objects.create(user=...)`, whose model class is not under the
sources given).  It fails with a storage fault when the store is down,
rejects a duplicate one-to-one association with a constraint violation,
and otherwise appends exactly one new row. -/
def profileObjectsCreate (s : Store) (uid : Nat) : Except ProvisioningError Store :=
  if s.profileStoreDown then
    .error .storageFault
  else if s.profiles.any (fun p => p.user_id = uid) then
    .error .duplicateAssociation
  else
    .ok { s with profiles := s.profiles ++ [⟨uid⟩] }

/-- The type of the `sender` argument delivered by the signal dispatcher
(the model class that sent the signal). -/
def Sender := String

/-- The extra keyword arguments delivered by the signal dispatcher. -/
def Kwargs := List (String × String)

/-- The hook of `users/signals.py`:

```
@receiver(post_save, sender=User)
def build_profile(sender, instance, created, **kwargs):
   if created:
      Profile.objects.create(user=instance)
```

It receives the saved instance and the `created` flag; when `created` is
true it issues one `Profile.objects.create(user=instance)` to the Profile
store, and otherwise does nothing.  Any error from the create is not
caught and propagates to the caller. -/
def build_profile (sender : Sender) (inst : User) (created : Bool)
    (kwargs : Kwargs) (s : Store) : Except ProvisioningError Store :=
  if created then
    profileObjectsCreate s inst.id
  else
    .ok s

/-- The `sender` actually passed by the dispatcher (the `User` model). -/
def userSender : Sender := "User"

/-- The keyword arguments actually passed by the dispatcher (irrelevant to
the hook's behaviour). -/
def noKwargs : Kwargs := []

/-- A persistence event observed by the provisioner: a User-row insert
(which fires the hook with `created=True`) or a User-row update (which
fires it with `created=False`). -/
inductive Event where
  | createUser (u : User)
  | updateUser (u : User)
deriving DecidableEq

/-- Insert a User row into the User store. -/
def userInsert (s : Store) (u : User) : Store :=
  { s with users := s.users ++ [u] }

/-- Update an existing User row in place (by primary key). -/
def userUpdate (s : Store) (u : User) : Store :=
  { s with users := s.users.map (fun v => if v.id = u.id then u else v) }

/-- Modelled from the spec: the external persistence layer's handling of
one user-persistence operation.  It first performs the User-row write
(insert on creation, in-place update otherwise), then invokes the hook
synchronously with an accurate `created` flag, post-save — so the hook
sees a state in which the User write is already visible.  Per the spec's
propagation policy, if the hook fails the whole operation reports failure
and is rolled back: the caller receives the error together with the store
as it stands afterwards, which is the unchanged pre-state. -/
def step (s : Store) (e : Event) : Except (ProvisioningError × Store) Store :=
  match e with
  | .createUser u =>
    match build_profile userSender u true noKwargs (userInsert s u) with
    | .ok s' => .ok s'
    | .error err => .error (err, s)
  | .updateUser u =>
    match build_profile userSender u false noKwargs (userUpdate s u) with
    | .ok s' => .ok s'
    | .error err => .error (err, s)

/-- Run a sequence of persistence events; stop at the first failure. -/
def run (s : Store) : List Event → Except (ProvisioningError × Store) Store
  | [] => .ok s
  | e :: es =>
    match step s e with
    | .ok s' => run s' es
    | .error err => .error err

/-- The states reachable under the trigger contract with the persistence
collaborator: starting from the empty store, `createUser` events carry an
accurate `created=True` flag (the primary key is new — first insert,
fired exactly once), and `updateUser` events update an existing row with
`created=False`. -/
inductive Reachable : Store → Prop where
  | init : Reachable emptyStore
  | create (s : Store) (u : User) (s' : Store) :
      Reachable s → (∀ v ∈ s.users, v.id ≠ u.id) →
      step s (.createUser u) = .ok s' → Reachable s'
  | update (s : Store) (u : User) (s' : Store) :
      Reachable s → (∃ v ∈ s.users, v.id = u.id) →
      step s (.updateUser u) = .ok s' → Reachable s'

/-- An event is not a creation event for the user with key `uid`. -/
def notCreateFor (uid : Nat) : Event → Bool
  | .createUser v => v.id ≠ uid
  | .updateUser _ => true

/-! ### Helper lemmas -/

/-- With `created = true` the hook is exactly one Profile-store create. -/
theorem build_profile_true_eq (sender : Sender) (kwargs : Kwargs) (u : User)
    (s : Store) :
    build_profile sender u true kwargs s = profileObjectsCreate s u.id := rfl

/-- With `created = false` the hook performs no action. -/
theorem build_profile_false_eq (sender : Sender) (kwargs : Kwargs) (u : User)
    (s : Store) :
    build_profile sender u false kwargs s = .ok s := rfl

/-- Characterisation of a successful `createUser` step: the Profile store
was up, no Profile for the new key existed, and the result appends the
User row and exactly one Profile row. -/
theorem step_createUser_ok (s : Store) (u : User) (s' : Store)
    (h : step s (.createUser u) = .ok s') :
    s.profileStoreDown = false ∧
    s.profiles.any (fun p => p.user_id = u.id) = false ∧
    s' = { users := s.users ++ [u], profiles := s.profiles ++ [⟨u.id⟩],
           profileStoreDown := false } := by
  unfold step build_profile profileObjectsCreate userInsert at h
  simp only [if_true] at h
  by_cases hd : s.profileStoreDown
  · simp [hd] at h
  · by_cases ha : s.profiles.any (fun p => p.user_id = u.id)
    · simp [hd, ha] at h
    · simp only [hd, ha, Bool.false_eq_true, if_false] at h
      cases h
      exact ⟨by simp [hd], by simp [ha], rfl⟩

/-- An `updateUser` step always succeeds and only rewrites the User row in
place; the Profile store is untouched. -/
theorem step_updateUser_eq (s : Store) (u : User) :
    step s (.updateUser u) = .ok (userUpdate s u) := rfl

/-- `userUpdate` does not change the Profile store. -/
theorem userUpdate_profiles (s : Store) (u : User) :
    (userUpdate s u).profiles = s.profiles := rfl

/-- The profile count only looks at the Profile rows. -/
theorem profileCount_append (s : Store) (l : List Profile) (uid : Nat) :
    (({ s with profiles := s.profiles ++ l }) : Store).profiles.filter
        (fun p => p.user_id = uid) =
      s.profiles.filter (fun p => p.user_id = uid) ++
        l.filter (fun p => p.user_id = uid) := by
  simp [List.filter_append]

/-- The inductive invariant of the provisioner: every User row has exactly
one Profile row, and every Profile row references an existing User row. -/
def Inv (s : Store) : Prop :=
  (∀ u ∈ s.users, profileCount s u.id = 1) ∧
  (∀ p ∈ s.profiles, ∃ u ∈ s.users, u.id = p.user_id)

/-- The invariant holds in every reachable state. -/
theorem reachable_inv (s : Store) (h : Reachable s) : Inv s := by
  induction h with
  | init =>
    exact ⟨by simp [emptyStore], by simp [emptyStore]⟩
  | create s u s' hr hfresh hstep ih =>
    obtain ⟨hd, ha, rfl⟩ := step_createUser_ok s u s' hstep
    have ha' : ∀ p ∈ s.profiles, ¬p.user_id = u.id := by
      simpa using ha
    have hnone : s.profiles.filter (fun p => p.user_id = u.id) = [] := by
      rw [List.filter_eq_nil_iff]
      intro p hp
      simpa using ha' p hp
    constructor
    · intro v hv
      rcases List.mem_append.mp hv with hv | hv
      · have hne : v.id ≠ u.id := fun he => hfresh v hv he
        have h1 := ih.1 v hv
        simp only [profileCount, List.filter_append] at *
        have : [Profile.mk u.id].filter (fun p => p.user_id = v.id) = [] := by
          simp [hne.symm]
        simp [this, h1]
      · have hvu : v = u := by simpa using hv
        subst hvu
        simp only [profileCount, List.filter_append, List.length_append, hnone]
        simp
    · intro p hp
      rcases List.mem_append.mp hp with hp | hp
      · obtain ⟨w, hw, hwid⟩ := ih.2 p hp
        exact ⟨w, List.mem_append_left _ hw, hwid⟩
      · have hpu : p = ⟨u.id⟩ := by simpa using hp
        subst hpu
        exact ⟨u, List.mem_append_right _ (by simp), rfl⟩
  | update s u s' hr hex hstep ih =>
    have hs' : s' = userUpdate s u := by
      have := step_updateUser_eq s u
      rw [this] at hstep
      exact (Except.ok.inj hstep).symm
    subst hs'
    constructor
    · intro v hv
      simp only [userUpdate, List.mem_map] at hv
      obtain ⟨w, hw, hwv⟩ := hv
      have hc := ih.1 w hw
      by_cases hwe : w.id = u.id
      · simp only [hwe, if_true] at hwv
        subst hwv
        simpa [profileCount, userUpdate, ← hwe] using hc
      · simp only [hwe, if_false] at hwv
        subst hwv
        simpa [profileCount, userUpdate] using hc
    · intro p hp
      obtain ⟨w, hw, hwid⟩ := ih.2 p (by simpa [userUpdate] using hp)
      by_cases hwe : w.id = u.id
      · refine ⟨u, ?_, by rw [← hwe]; exact hwid⟩
        simp only [userUpdate, List.mem_map]
        exact ⟨w, hw, by simp [hwe]⟩
      · refine ⟨w, ?_, hwid⟩
        simp only [userUpdate, List.mem_map]
        exact ⟨w, hw, by simp [hwe]⟩

/-! ### Claim theorems -/

/-- C1: for every invocation of `build_profile`, a new Profile record for
the saved user is created if and only if `created` is true: with
`created = false` the hook performs no action and the store is returned
unchanged, and with `created = true` a successful invocation appends
exactly one new Profile row referencing that user. -/
theorem build_profile_creates_iff_created (sender : Sender) (kwargs : Kwargs)
    (u : User) (s s' : Store) :
    build_profile sender u false kwargs s = .ok s ∧
    (build_profile sender u true kwargs s = .ok s' →
      s'.profiles = s.profiles ++ [⟨u.id⟩] ∧
      profileCount s' u.id = profileCount s u.id + 1) := by
  refine ⟨rfl, fun h => ?_⟩
  rw [build_profile_true_eq] at h
  unfold profileObjectsCreate at h
  split_ifs at h with hd ha
  cases h
  refine ⟨rfl, ?_⟩
  simp [profileCount, List.filter_append]

theorem build_profile_creates_iff_created_witness :
    build_profile userSender ⟨1, "alice"⟩ false noKwargs emptyStore = .ok emptyStore ∧
    ((⟨[], [⟨1⟩], false⟩ : Store).profiles = emptyStore.profiles ++ [⟨1⟩] ∧
      profileCount ⟨[], [⟨1⟩], false⟩ 1 = profileCount emptyStore 1 + 1) :=
  ⟨(build_profile_creates_iff_created userSender noKwargs ⟨1, "alice"⟩ emptyStore
      ⟨[], [⟨1⟩], false⟩).1,
   (build_profile_creates_iff_created userSender noKwargs ⟨1, "alice"⟩ emptyStore
      ⟨[], [⟨1⟩], false⟩).2 rfl⟩

/-- C2: in every state reachable by the step relation under the trigger
contract, every User row in the store has exactly one Profile row
referencing it — never zero, never more than one. -/
theorem reachable_exactly_one_profile (s : Store) (h : Reachable s) :
    ∀ u ∈ s.users, profileCount s u.id = 1 :=
  (reachable_inv s h).1

theorem reachable_exactly_one_profile_witness :
    profileCount ⟨[⟨1, "alice2"⟩], [⟨1⟩], false⟩ 1 = 1 := by
  have h1 : Reachable (⟨[⟨1, "alice"⟩], [⟨1⟩], false⟩ : Store) :=
    Reachable.create emptyStore ⟨1, "alice"⟩ _ Reachable.init
      (by intro v hv; simp [emptyStore] at hv) rfl
  have h2 : Reachable (⟨[⟨1, "alice2"⟩], [⟨1⟩], false⟩ : Store) :=
    Reachable.update _ ⟨1, "alice2"⟩ _ h1 ⟨⟨1, "alice"⟩, by simp, rfl⟩ rfl
  exact reachable_exactly_one_profile _ h2 ⟨1, "alice2"⟩ (by simp)

/-- C3: failure atomicity of user creation.  For a user with no
pre-existing Profile row, if the Profile-store write inside the hook
fails then the user-creation operation reports the `ProvisioningError`
to the caller and the resulting store is the rolled-back pre-state, in
which no Profile row for that user exists; and whenever the operation
succeeds, the user has its Profile — so a caller never observes a
successfully created User lacking a Profile. -/
theorem createUser_failure_atomic (s : Store) (u : User)
    (hpre : profileCount s u.id = 0) :
    (∀ err s'', step s (.createUser u) = .error (err, s'') →
        s'' = s ∧ profileCount s'' u.id = 0) ∧
    (∀ s', step s (.createUser u) = .ok s' → profileCount s' u.id = 1) := by
  constructor
  · intro err s'' h
    simp only [step] at h
    cases hb : build_profile userSender u true noKwargs (userInsert s u) with
    | ok t => rw [hb] at h; cases h
    | error e => rw [hb] at h; cases h; exact ⟨rfl, hpre⟩
  · intro s' h
    obtain ⟨hd, ha, rfl⟩ := step_createUser_ok s u s' h
    simp only [profileCount, List.filter_append, List.length_append] at hpre ⊢
    simp [hpre]

theorem createUser_failure_atomic_witness :
    profileCount ⟨[], [], true⟩ 1 = 0 ∧
    ((⟨[], [], true⟩ : Store) = ⟨[], [], true⟩ ∧
      profileCount ⟨[], [], true⟩ 1 = 0) :=
  ⟨rfl, (createUser_failure_atomic ⟨[], [], true⟩ ⟨1, "alice"⟩ rfl).1
    .storageFault ⟨[], [], true⟩ rfl⟩

/-- C4: the hook raises exactly when the underlying Profile-store create
raises.  With `created = true` it is literally the store create (so any
error from the create propagates, uncaught and unretried); with
`created = false` it never raises; and it returns an error if and only
if `created` is true and the store create returned that same error. -/
theorem build_profile_raises_iff_create_raises (sender : Sender)
    (kwargs : Kwargs) (u : User) (created : Bool) (s : Store) :
    (created = true →
        build_profile sender u created kwargs s = profileObjectsCreate s u.id) ∧
    (created = false → build_profile sender u created kwargs s = .ok s) ∧
    (∀ err, build_profile sender u created kwargs s = .error err ↔
        created = true ∧ profileObjectsCreate s u.id = .error err) := by
  refine ⟨fun h => by subst h; rfl, fun h => by subst h; rfl, fun err => ?_⟩
  cases created
  · simp [build_profile]
  · simp [build_profile]

theorem build_profile_raises_iff_create_raises_witness :
    build_profile userSender ⟨1, "alice"⟩ true noKwargs emptyStore =
      profileObjectsCreate emptyStore 1 :=
  (build_profile_raises_iff_create_raises userSender noKwargs ⟨1, "alice"⟩
    true emptyStore).1 rfl

/-- C5: frame condition of the hook.  On a qualifying invocation
(`created = true`) that succeeds, exactly one row is added to the Profile
store and the User store is unchanged; on a non-qualifying invocation
(`created = false`) neither store is written. -/
theorem build_profile_frame (sender : Sender) (kwargs : Kwargs) (u : User)
    (s : Store) :
    (∀ s', build_profile sender u true kwargs s = .ok s' →
        s'.users = s.users ∧ s'.profiles.length = s.profiles.length + 1) ∧
    build_profile sender u false kwargs s = .ok s := by
  refine ⟨fun s' h => ?_, rfl⟩
  rw [build_profile_true_eq] at h
  unfold profileObjectsCreate at h
  split_ifs at h with hd ha
  cases h
  exact ⟨rfl, by simp⟩

theorem build_profile_frame_witness :
    (⟨[], [⟨1⟩], false⟩ : Store).users = emptyStore.users ∧
    (⟨[], [⟨1⟩], false⟩ : Store).profiles.length = emptyStore.profiles.length + 1 :=
  (build_profile_frame userSender noKwargs ⟨1, "alice"⟩ emptyStore).1
    ⟨[], [⟨1⟩], false⟩ rfl

/-- C6: idempotence of the non-triggering path.  Any run of events that
contains no creation event for key `uid` — updates of that user any
number of times, interleaved with other users' events — leaves the
Profile count of `uid` unchanged; moreover each update step only rewrites
the User row and performs no write at all to the Profile store (the
commented-out save-profile-on-update hook contributes nothing). -/
theorem update_path_idempotent (uid : Nat) (es : List Event) :
    (∀ s s' : Store, (∀ e ∈ es, notCreateFor uid e = true) →
        run s es = .ok s' → profileCount s' uid = profileCount s uid) ∧
    (∀ (s : Store) (u : User), step s (.updateUser u) = .ok (userUpdate s u) ∧
        (userUpdate s u).profiles = s.profiles) := by
  refine ⟨?_, fun s u => ⟨rfl, rfl⟩⟩
  induction es with
  | nil =>
    intro s s' _ hrun
    cases hrun
    rfl
  | cons e es ih =>
    intro s s' hes hrun
    unfold run at hrun
    cases hstep : step s e with
    | error err => rw [hstep] at hrun; cases hrun
    | ok t =>
      rw [hstep] at hrun
      have hcount : profileCount t uid = profileCount s uid := by
        cases e with
        | updateUser u =>
          rw [step_updateUser_eq] at hstep
          cases hstep
          rfl
        | createUser v =>
          obtain ⟨hd, ha, rfl⟩ := step_createUser_ok s v t hstep
          have hv : v.id ≠ uid := by
            have := hes (.createUser v) (by simp)
            simpa [notCreateFor] using this
          simp [profileCount, List.filter_append, hv]
      have hrest := ih t s' (fun e he => hes e (by simp [he])) hrun
      rw [hrest, hcount]

theorem update_path_idempotent_witness :
    profileCount ⟨[⟨1, "alice4"⟩], [⟨1⟩], false⟩ 1 =
      profileCount ⟨[⟨1, "alice"⟩], [⟨1⟩], false⟩ 1 :=
  (update_path_idempotent 1
      [.updateUser ⟨1, "alice3"⟩, .updateUser ⟨1, "alice4"⟩]).1
    ⟨[⟨1, "alice"⟩], [⟨1⟩], false⟩ ⟨[⟨1, "alice4"⟩], [⟨1⟩], false⟩
    (by decide) rfl

/-- C7: the concrete scenario.  Creating User `{id=1, name="alice"}` with
`created = true` yields exactly one Profile with `user_id = 1`; then
updating User `{id=1, name="alice2"}` with `created = false` leaves the
Profile count for `user_id = 1` at exactly 1. -/
theorem concrete_alice_scenario :
    run emptyStore [.createUser ⟨1, "alice"⟩] =
      .ok ⟨[⟨1, "alice"⟩], [⟨1⟩], false⟩ ∧
    profileCount ⟨[⟨1, "alice"⟩], [⟨1⟩], false⟩ 1 = 1 ∧
    run emptyStore [.createUser ⟨1, "alice"⟩, .updateUser ⟨1, "alice2"⟩] =
      .ok ⟨[⟨1, "alice2"⟩], [⟨1⟩], false⟩ ∧
    profileCount ⟨[⟨1, "alice2"⟩], [⟨1⟩], false⟩ 1 = 1 :=
  ⟨rfl, rfl, rfl, rfl⟩

/-- C8: ordering.  For each user-creation event the hook runs post-save:
the Profile-store create is issued on a state in which the User row is
already visible; if the operation fails, the rolled-back store has no new
Profile row (no orphan); and in every reachable state every Profile
references a persisted User. -/
theorem profile_write_ordered_after_user_write (s : Store) (u : User) :
    (∀ s', step s (.createUser u) = .ok s' →
        build_profile userSender u true noKwargs (userInsert s u) = .ok s' ∧
        u ∈ (userInsert s u).users) ∧
    (∀ err s'', step s (.createUser u) = .error (err, s'') →
        s''.profiles = s.profiles) ∧
    (Reachable s → ∀ p ∈ s.profiles, ∃ v ∈ s.users, v.id = p.user_id) := by
  refine ⟨fun s' h => ⟨?_, by simp [userInsert]⟩, fun err s'' h => ?_,
    fun hr => (reachable_inv s hr).2⟩
  · simp only [step] at h
    cases hb : build_profile userSender u true noKwargs (userInsert s u) with
    | ok t => rw [hb] at h; cases h; rfl
    | error e => rw [hb] at h; cases h
  · simp only [step] at h
    cases hb : build_profile userSender u true noKwargs (userInsert s u) with
    | ok t => rw [hb] at h; cases h
    | error e => rw [hb] at h; cases h; rfl

theorem profile_write_ordered_after_user_write_witness :
    build_profile userSender ⟨1, "alice"⟩ true noKwargs
      (userInsert emptyStore ⟨1, "alice"⟩) =
      .ok ⟨[⟨1, "alice"⟩], [⟨1⟩], false⟩ ∧
    (⟨1, "alice"⟩ : User) ∈ (userInsert emptyStore ⟨1, "alice"⟩).users :=
  (profile_write_ordered_after_user_write emptyStore ⟨1, "alice"⟩).1
    ⟨[⟨1, "alice"⟩], [⟨1⟩], false⟩ rfl

/-- C9: the hook's behaviour depends only on the instance and the
`created` flag — two invocations differing only in `sender` and the
extra keyword arguments produce identical results on every store. -/
theorem hook_ignores_sender_and_kwargs (sa sb : Sender) (ka kb : Kwargs)
    (u : User) (created : Bool) (s : Store) :
    build_profile sa u created ka s = build_profile sb u created kb s := rfl

/-- C10: no existence check.  With `created = true` and the Profile store
up, the hook unconditionally issues the create: if a Profile for the
user's key already exists, the create hits the duplicate-association
error branch rather than being skipped; and if none exists, the create
succeeds — so the duplicate branch is reached exactly when the
exactly-once trigger precondition is violated. -/
theorem unconditional_create_duplicate_branch (sender : Sender)
    (kwargs : Kwargs) (u : User) (s : Store)
    (hup : s.profileStoreDown = false) :
    (s.profiles.any (fun p => p.user_id = u.id) = true →
        build_profile sender u true kwargs s = .error .duplicateAssociation) ∧
    (s.profiles.any (fun p => p.user_id = u.id) = false →
        build_profile sender u true kwargs s =
          .ok { s with profiles := s.profiles ++ [⟨u.id⟩] }) := by
  constructor
  · intro ha
    rw [build_profile_true_eq]
    unfold profileObjectsCreate
    simp [hup, ha]
  · intro ha
    rw [build_profile_true_eq]
    unfold profileObjectsCreate
    simp [hup, ha]

theorem unconditional_create_duplicate_branch_witness :
    build_profile userSender ⟨1, "alice"⟩ true noKwargs
      ⟨[⟨1, "alice"⟩], [⟨1⟩], false⟩ = .error .duplicateAssociation :=
  (unconditional_create_duplicate_branch userSender noKwargs ⟨1, "alice"⟩
    ⟨[⟨1, "alice"⟩], [⟨1⟩], false⟩ rfl).1 rfl

end ProfileProvisioner
